import Mathlib

/-!
Verification development for the "Where Should I Live?" Streamlit frontend.

The repository has two pages:
* `src/frontend.py` — the preference form: builds the request payload
  (including the zero-to-absent budget normalization), posts it to the
  external recommender, and renders the returned ranked list with
  per-factor match bars, converting each score to a percentage and
  treating the sentinel string "N/A" as zero.
* `src/pages/About.py` — the country directory resolver: maps dataset
  country names to ISO alpha-3 codes through a fixed override table with
  a fuzzy-lookup fallback, deduplicates by display name, and drops
  unresolved entries before rendering a choropleth map.

The embedding below translates that Python code into Lean.  JSON values
are modelled by an inductive type; numbers are exact rationals (the
claims under study do not depend on floating-point rounding); the fuzzy
country lookup provided by the external `pycountry` library is an
arbitrary function parameter, since its behaviour is external to the
repository; fallible Python expressions (uncaught exceptions) are
modelled with `Except`/`Option`.
-/

namespace WSIL

/-! ## JSON values -/

/-- JSON values, the payloads of the recommender response.  Numbers are
modelled as exact rationals. -/
inductive JVal where
  | jnull
  | jbool (b : Bool)
  | jnum (q : ℚ)
  | jstr (s : String)
  | jarr (elems : List JVal)
  | jobj (fields : List (String × JVal))

/-- Python truthiness of a JSON value (`bool(v)`): `None`, `False`, zero,
and empty strings/lists/dicts are falsy. -/
def jTruthy : JVal → Bool
  | .jnull => false
  | .jbool b => b
  | .jnum q => decide (q ≠ 0)
  | .jstr s => decide (s ≠ "")
  | .jarr l => !l.isEmpty
  | .jobj l => !l.isEmpty

/-- Python `v or d` on JSON values: `v` if truthy, else `d`. -/
def pyOrJ (v d : JVal) : JVal := if jTruthy v then v else d

/-- Python `x or 0` applied to an (already numeric) value: the identity
on nonzero values, and `0` on `0`. -/
def pyOr0 (q : ℚ) : ℚ := if q = 0 then 0 else q

/-- Whether the value is the literal string "N/A" (the sentinel the
frontend checks for with `isinstance(x, str) and x == 'N/A'`). -/
def isNA : JVal → Bool
  | .jstr s => s == "N/A"
  | _ => false

/-- ASCII decimal digit test. -/
def isDigitCh (c : Char) : Bool := 48 ≤ c.toNat && c.toNat ≤ 57

/-- Numeric value of a list of ASCII digits, most significant first. -/
def digitsVal (l : List Char) : ℕ := l.foldl (fun a c => 10 * a + (c.toNat - 48)) 0

/-- Python `float(s)` on a string, restricted to plain decimal literals
(optional sign, digits, optional fractional part); any other string —
in particular "N/A" — fails with `ValueError`, modelled as `none`. -/
def pyFloatOfString (s : String) : Option ℚ :=
  let signSplit : Bool × List Char :=
    match s.data with
    | '-' :: rest => (true, rest)
    | '+' :: rest => (false, rest)
    | chars => (false, chars)
  let applySign : ℚ → ℚ := fun q => if signSplit.1 then -q else q
  match signSplit.2.splitOn '.' with
  | [intPart] =>
      if intPart ≠ [] ∧ intPart.all isDigitCh then
        some (applySign (digitsVal intPart))
      else none
  | [intPart, fracPart] =>
      if intPart ++ fracPart ≠ [] ∧ intPart.all isDigitCh ∧ fracPart.all isDigitCh then
        some (applySign (digitsVal intPart + mkRat (digitsVal fracPart) (10 ^ fracPart.length)))
      else none
  | _ => none

/-- Python `float(v)` on a JSON value: numbers convert to themselves,
booleans to 0/1, decimal-literal strings parse, and everything else
(`None`, other strings, lists, dicts) raises `TypeError`/`ValueError`,
modelled as `none`. -/
def pyFloat : JVal → Option ℚ
  | .jnum q => some q
  | .jbool b => some (if b then 1 else 0)
  | .jstr s => pyFloatOfString s
  | _ => none

/-- Python `d.get(key, default)` on a JSON object's field list. -/
def getJ (fields : List (String × JVal)) (key : String) (default : JVal) : JVal :=
  match fields.lookup key with
  | some v => v
  | none => default

/-! ## Python str.title() -/

/-- ASCII letter test (the dataset names are ASCII). -/
def chIsAlpha (c : Char) : Bool :=
  decide ((65 ≤ c.toNat ∧ c.toNat ≤ 90) ∨ (97 ≤ c.toNat ∧ c.toNat ≤ 122))

/-- ASCII lower-casing of one character. -/
def chToLower (c : Char) : Char :=
  if 65 ≤ c.toNat ∧ c.toNat ≤ 90 then Char.ofNat (c.toNat + 32) else c

/-- ASCII upper-casing of one character. -/
def chToUpper (c : Char) : Char :=
  if 97 ≤ c.toNat ∧ c.toNat ≤ 122 then Char.ofNat (c.toNat - 32) else c

/-- Core of Python `str.title()`: a character is upper-cased when the
previous character was not a letter, lower-cased otherwise.  The flag
records whether the previous character was a letter. -/
def titleAux : Bool → List Char → List Char
  | _, [] => []
  | prevAlpha, c :: cs =>
    (if prevAlpha then chToLower c else chToUpper c) :: titleAux (chIsAlpha c) cs

/-- Python `s.title()`. -/
def titleStr (s : String) : String := ⟨titleAux false s.data⟩

/-! ## Decimal rendering of the 1-based index (for f-string defaults) -/

/-- Decimal digits of `n`, most significant first; structural on fuel. -/
def natReprAux : ℕ → ℕ → List Char
  | 0, _ => []
  | fuel + 1, n =>
    if n < 10 then [Char.ofNat (48 + n)]
    else natReprAux fuel (n / 10) ++ [Char.ofNat (48 + n % 10)]

/-- Decimal rendering of a natural number, as Python's f-string does. -/
def natRepr (n : ℕ) : String := ⟨natReprAux (n + 1) n⟩

/-! ## frontend.py — response rendering -/

/-- The fixed factor table of `frontend.py` (`feature_display_map`):
response keys paired with display labels, in the rendering order. -/
def featureDisplayMap : List (String × String) :=
  [("average_monthly_cost_$", "💰 Cost of Living"),
   ("average_yearly_temperature", "🌡️ Temperature"),
   ("internet_speed_mbps", "🌐 Internet Speed"),
   ("safety_index", "🛡️ Safety"),
   ("Healthcare Index", "🏥 Healthcare")]

/-- One rendered score: frontend.py lines 116-125 for the overall score
and the identical lines 137-149 for each factor score.  Given the raw
value fetched with `.get(key, 0)`, replaces the literal string "N/A" by
`0`, then produces the displayed percentage `(float(score) or 0) * 100`
and the progress-bar value `float(score or 0)`.  A value `float` cannot
convert raises `TypeError`/`ValueError`, modelled as `.error`. -/
def scoreView (v0 : JVal) : Except String (ℚ × ℚ) :=
  let v := if isNA v0 then .jnum 0 else v0
  match pyFloat v with
  | some q =>
      .ok (pyOr0 q * 100,
           match pyFloat (pyOrJ v (.jnum 0)) with
           | some p => p
           | none => 0)
  | none => .error "float: could not convert score value"

/-- The rendered country name, frontend.py line 114:
`country_data.get('country', f'Unknown Country {i}').title()` where `i`
is the 1-based position of the entry.  A present non-string value makes
`.title()` raise `AttributeError`, modelled as `.error`. -/
def countryDisplayName (i : ℕ) (fields : List (String × JVal)) : Except String String :=
  match fields.lookup "country" with
  | some (.jstr s) => .ok (titleStr s)
  | some _ => .error "AttributeError: value has no title method"
  | none => .ok (titleStr ("Unknown Country " ++ natRepr i))

/-- One rendered result entry (an expander): its title carries the
country name and the overall percentage; `expanded` is the
`expanded=(i <= 1)` flag; each factor row carries the display label, the
percentage and the progress value. -/
structure Expander where
  name : String
  overallPercent : ℚ
  expanded : Bool
  overallProgress : ℚ
  factors : List (String × ℚ × ℚ)
deriving DecidableEq

/-- Renders the five factor columns of one entry (frontend.py lines
133-149): for each `(key, label)` of the factor table, fetches
`<key>_match_score` and renders it like the overall score. -/
def renderFactors (fields : List (String × JVal)) :
    List (String × String) → Except String (List (String × ℚ × ℚ))
  | [] => .ok []
  | (key, label) :: rest =>
    match scoreView (getJ fields (key ++ "_match_score") (.jnum 0)) with
    | .error e => .error e
    | .ok (pct, prog) =>
      match renderFactors fields rest with
      | .error e => .error e
      | .ok tail => .ok ((label, pct, prog) :: tail)

/-- Renders one response entry at 1-based position `i` (frontend.py
lines 113-149).  A non-dict entry raises on `.get`, modelled as
`.error`. -/
def renderEntry (i : ℕ) : JVal → Except String Expander
  | .jobj fields =>
    match countryDisplayName i fields with
    | .error e => .error e
    | .ok name =>
      match scoreView (getJ fields "similarity_score" (.jnum 0)) with
      | .error e => .error e
      | .ok (pct, prog) =>
        match renderFactors fields featureDisplayMap with
        | .error e => .error e
        | .ok factors =>
          .ok { name := name, overallPercent := pct, expanded := decide (i ≤ 1),
                overallProgress := prog, factors := factors }
  | _ => .error "AttributeError: entry is not a dict"

/-- Renders the whole response list, enumerating positions from `i`
(the loop `for i, country_data in enumerate(results, 1)` starts at 1).
The first uncaught per-entry exception aborts the render. -/
def renderResultsGo (i : ℕ) : List JVal → Except String (List Expander)
  | [] => .ok []
  | v :: rest =>
    match renderEntry i v with
    | .error e => .error e
    | .ok exp =>
      match renderResultsGo (i + 1) rest with
      | .error e => .error e
      | .ok tail => .ok (exp :: tail)

/-- Renders a response list, positions counted from 1. -/
def renderResults (entries : List JVal) : Except String (List Expander) :=
  renderResultsGo 1 entries

/-! ## frontend.py — the request/response handler -/

/-- The outcome of one submission, as the user sees it. -/
inductive RenderOutcome where
  | results (expanders : List Expander)
  | noMatch
  | errorWithDump (msg : String) (raw : JVal)
  | errorMsg (msg : String)
  | crash (msg : String)

/-- The transport-level result of the POST to the recommender: a
connection failure, a timeout, or a response with a status code and a
body (`none` when the body does not parse as JSON). -/
inductive HttpResult where
  | connErr
  | timeoutErr
  | response (status : ℕ) (body : Option JVal)

def connectionErrorMsg : String :=
  "Connection error: Unable to connect to the recommendation service. Please check your internet connection."

def timeoutErrorMsg : String :=
  "Timeout error: The request to the recommendation service took too long. Please try again later."

/-- The HTTPError handler's message, frontend.py line 163; it embeds the
response's status code. -/
def httpErrorMsg (status : ℕ) : String :=
  "HTTP error: Received a " ++ natRepr status ++ " status code from the recommendation service."

/-- The generic RequestException handler's message, frontend.py line
165; it embeds the exception's text. -/
def networkErrorMsg (e : String) : String :=
  "Network error: An unexpected error occurred. (" ++ e ++ ")"

/-- The text of the JSON decoding error raised by `response.json()` on a
body that fails to parse. -/
def jsonDecodeErrorText : String := "Expecting value: line 1 column 1 (char 0)"

def unexpectedResponseMsg : String := "Received an unexpected response from the server."

def noMatchMsg : String :=
  "No countries found matching your criteria. Try adjusting your preferences or budget."

/-- `raise_for_status` raises `HTTPError` exactly for status codes in
[400, 600). -/
def raisesForStatus (status : ℕ) : Bool := 400 ≤ status && status < 600

/-- The submission handler of frontend.py (lines 94-165): the `try`
block around the POST / `raise_for_status` / `response.json()` pipeline,
the three-way shape dispatch on the parsed payload, and the four
`except` clauses.  `JSONDecodeError` is a `requests` exception subclass
of `RequestException`, so an unparseable body lands in the generic
network-error handler.  Exceptions raised inside the rendering loop
(e.g. `float(None)`) match none of the `except` clauses and crash the
submission. -/
def handler : HttpResult → RenderOutcome
  | .connErr => .errorMsg connectionErrorMsg
  | .timeoutErr => .errorMsg timeoutErrorMsg
  | .response status body =>
    if raisesForStatus status then .errorMsg (httpErrorMsg status)
    else
      match body with
      | none => .errorMsg (networkErrorMsg jsonDecodeErrorText)
      | some results =>
        match results with
        | .jarr [] => .noMatch
        | .jarr (e :: es) =>
          match renderResults (e :: es) with
          | .ok exps => .results exps
          | .error msg => .crash msg
        | other => .errorWithDump unexpectedResponseMsg other

/-- Whether the outcome shows the raw payload dump (`st.json(results)`,
frontend.py line 156). -/
def hasRawDump : RenderOutcome → Bool
  | .errorWithDump _ _ => true
  | _ => false

/-! ## frontend.py — the outgoing request payload -/

/-- The zero-to-absent budget normalization, frontend.py line 59:
`max_monthly_budget = None if max_monthly_budget == 0 else max_monthly_budget`. -/
def normalizeBudget (b : ℕ) : Option ℕ :=
  if b = 0 then none else some b

/-- The outgoing PreferenceRequest payload (frontend.py lines 82-91). -/
structure PreferencePayload where
  climate_preference : String
  climate_importance : ℕ
  cost_of_living_importance : ℕ
  healthcare_importance : ℕ
  safety_importance : ℕ
  internet_speed_importance : ℕ
  continent_preference : Option String
  max_monthly_budget : Option ℕ

/-- Builds the payload from the widget values; the budget has already
been normalized by line 59, embedded here as `normalizeBudget`. -/
def buildPayload (climate : String) (ci co he sa sp : ℕ)
    (continent : Option String) (budget : ℕ) : PreferencePayload :=
  { climate_preference := climate
    climate_importance := ci
    cost_of_living_importance := co
    healthcare_importance := he
    safety_importance := sa
    internet_speed_importance := sp
    continent_preference := continent
    max_monthly_budget := normalizeBudget budget }

/-- Whether a JSON value is a list (`isinstance(results, list)`). -/
def isArr : JVal → Bool
  | .jarr _ => true
  | _ => false

/-! ## pages/About.py — country directory resolver -/

/-- The fixed override table of About.py (`name_to_iso`, lines 24-30):
thirteen historically-ambiguous or multi-word names mapped directly to
ISO alpha-3 codes. -/
def nameToIso : List (String × String) :=
  [("united states", "USA"), ("united kingdom", "GBR"), ("russia", "RUS"),
   ("south korea", "KOR"), ("congo", "COD"),
   ("ivory coast", "CIV"), ("myanmar", "MMR"), ("taiwan", "TWN"),
   ("bosnia & herzegovina", "BIH"), ("north macedonia", "MKD"),
   ("trinidad & tobago", "TTO"), ("hong kong", "HKG"), ("turkey", "TUR")]

/-- Name resolution for one country (About.py lines 33-40): a direct hit
in the override table wins; otherwise the first candidate of the
external fuzzy lookup (`pycountry.countries.search_fuzzy`) is used.
The fuzzy matcher is external to the repository, so it is an arbitrary
function parameter; `none` models the caught `LookupError`/`IndexError`
path. -/
def resolveIso (fuzzy : String → Option String) (name : String) : Option String :=
  match nameToIso.lookup name with
  | some iso => some iso
  | none => fuzzy name

/-- One row of the country directory (the dicts appended to
`countries_with_iso`). -/
structure DirEntry where
  country : String
  iso_alpha_3 : String
  has_data : Bool
deriving DecidableEq

/-- Builds the raw directory rows (About.py lines 32-54): for each
dataset name, the title-cased display name plus either the resolved ISO
code with `has_data=True`, or the sentinel "Unknown" with
`has_data=False` when resolution fails. -/
def buildEntries (fuzzy : String → Option String) (names : List String) : List DirEntry :=
  names.map fun n =>
    match resolveIso fuzzy n with
    | some iso => { country := titleStr n, iso_alpha_3 := iso, has_data := true }
    | none => { country := titleStr n, iso_alpha_3 := "Unknown", has_data := false }

/-- `drop_duplicates(subset=['country'])` with pandas' default
`keep='first'`: keeps an entry when its display name has not been seen
before. -/
def dedupByCountry (seen : List String) : List DirEntry → List DirEntry
  | [] => []
  | e :: es =>
    if e.country ∈ seen then dedupByCountry seen es
    else e :: dedupByCountry (e.country :: seen) es

/-- `get_countries_data` (About.py lines 11-71).  `load` is the outcome
of reading the dataset file: `some names` is the country-name column,
`none` models any load failure, which degrades to the empty fallback
frame (lines 67-71).  On success: build the rows, deduplicate by display
name (line 60), then drop the rows whose code is the "Unknown" sentinel
(line 63). -/
def getCountriesData (fuzzy : String → Option String) (load : Option (List String)) :
    List DirEntry :=
  match load with
  | none => []
  | some names =>
    ((dedupByCountry [] (buildEntries fuzzy names)).filter fun e => e.iso_alpha_3 ≠ "Unknown")

/-- Two strings are equal up to letter casing. -/
def eqUpToCase (s t : String) : Prop :=
  s.data.map chToLower = t.data.map chToLower

/-- The letter flag `titleAux` is left with after consuming a list. -/
def titleFlagAfter (b : Bool) : List Char → Bool
  | [] => b
  | c :: cs => titleFlagAfter (chIsAlpha c) cs

/-! ## Supporting lemmas -/

theorem raisesForStatus_true {status : ℕ} (h1 : 400 ≤ status) (h2 : status < 600) :
    raisesForStatus status = true := by
  simp [raisesForStatus]
  omega

theorem renderResultsGo_length {l : List JVal} :
    ∀ {i : ℕ} {exps : List Expander}, renderResultsGo i l = .ok exps →
      exps.length = l.length := by
  induction l with
  | nil =>
    intro i exps h
    simp only [renderResultsGo] at h
    cases h
    rfl
  | cons v rest ih =>
    intro i exps h
    simp only [renderResultsGo] at h
    split at h
    · cases h
    · split at h
      · cases h
      · cases h
        simpa using ih (by assumption)

theorem renderResultsGo_get {l : List JVal} :
    ∀ {i j : ℕ} {exps : List Expander} {v : JVal},
      renderResultsGo i l = .ok exps → l.get? j = some v →
      ∃ e, exps.get? j = some e ∧ renderEntry (i + j) v = .ok e := by
  induction l with
  | nil =>
    intro i j exps v _ hv
    simp at hv
  | cons w rest ih =>
    intro i j exps v h hv
    simp only [renderResultsGo] at h
    split at h
    · cases h
    · split at h
      · cases h
      · cases h
        cases j with
        | zero =>
          cases hv
          exact ⟨_, rfl, by simpa using (by assumption)⟩
        | succ j' =>
          have := ih (by assumption) (by simpa using hv)
          simpa [Nat.add_comm, Nat.add_left_comm] using this

theorem renderEntry_expanded {i : ℕ} {v : JVal} {e : Expander}
    (h : renderEntry i v = .ok e) : e.expanded = decide (i ≤ 1) := by
  cases v <;> simp only [renderEntry] at h <;> try cases h
  split at h
  · cases h
  · split at h
    · cases h
    · split at h
      · cases h
      · cases h
        rfl

theorem renderEntry_name {i : ℕ} {fields : List (String × JVal)} {e : Expander}
    (h : renderEntry i (.jobj fields) = .ok e) (hc : fields.lookup "country" = none) :
    e.name = titleStr ("Unknown Country " ++ natRepr i) := by
  simp only [renderEntry, countryDisplayName, hc] at h
  split at h
  · cases h
  · split at h
    · cases h
    · cases h
      rfl

/-! ## Claim C1 -/

section
attribute [local semireducible] Rat.mul

/-- Claim C1 (amended, proved): a score that is missing from the entry
(`.get` returns the default 0) or is the literal string "N/A" renders as
exactly 0 percent with a progress bar at 0, for the overall score and
the per-factor scores alike (both fetch with `getJ _ _ (jnum 0)` and
render with `scoreView`). -/
theorem c1_na_or_missing_scores_render_zero_percent :
    scoreView (.jstr "N/A") = .ok (0, 0) ∧
      ∀ (fields : List (String × JVal)) (key : String),
        fields.lookup key = none → scoreView (getJ fields key (.jnum 0)) = .ok (0, 0) := by
  refine ⟨rfl, fun fields key h => ?_⟩
  have hget : getJ fields key (.jnum 0) = .jnum 0 := by simp [getJ, h]
  rw [hget]
  rfl

/-- Witness for C1: a concrete entry whose score keys are absent renders
0 percent, and the literal "N/A" renders 0 percent. -/
theorem c1_na_or_missing_scores_render_zero_percent_witness :
    scoreView (.jstr "N/A") = .ok (0, 0) ∧
      scoreView (getJ [("country", JVal.jstr "portugal")] "similarity_score" (.jnum 0)) =
        .ok (0, 0) :=
  ⟨c1_na_or_missing_scores_render_zero_percent.1,
   c1_na_or_missing_scores_render_zero_percent.2 [("country", JVal.jstr "portugal")]
     "similarity_score" rfl⟩

end

/-- Counterexample to C1 as stated: an entry whose `similarity_score` is
null (`None`) does not render as 0 — `float(None)` raises an uncaught
`TypeError` and the submission crashes. -/
theorem c1_null_similarity_score_crashes :
    handler (.response 200 (some (.jarr
        [.jobj [("country", JVal.jstr "nowhere"), ("similarity_score", JVal.jnull)]]))) =
      .crash "float: could not convert score value" := rfl

/-! ## Claim C7 -/

/-- Claim C7 (confirmed): a response that is a non-empty list of N
entries that all render successfully produces exactly N expanders, and
only the first one (1-based position 1, from `expanded=(i <= 1)`) is
expanded by default. -/
theorem c7_n_expanders_first_expanded :
    ∀ (entries : List JVal) (exps : List Expander), entries ≠ [] →
      renderResults entries = .ok exps →
      handler (.response 200 (some (.jarr entries))) = .results exps ∧
      exps.length = entries.length ∧
      ∀ (j : ℕ) (e : Expander), exps.get? j = some e → e.expanded = decide (j = 0) := by
  intro entries exps hne hr
  refine ⟨?_, renderResultsGo_length hr, ?_⟩
  · cases entries with
    | nil => exact absurd rfl hne
    | cons w rest =>
      have hstep : handler (.response 200 (some (.jarr (w :: rest)))) =
          match renderResultsGo 1 (w :: rest) with
          | .ok l => .results l
          | .error msg => .crash msg := rfl
      rw [show renderResults (w :: rest) = renderResultsGo 1 (w :: rest) from rfl] at hr
      rw [hstep, hr]
  · intro j e he
    have hlen : exps.length = entries.length := renderResultsGo_length hr
    have hj : j < exps.length := by
      by_contra hge
      rw [List.get?_eq_none.mpr (Nat.le_of_not_lt hge)] at he
      cases he
    obtain ⟨v, hv⟩ : ∃ v, entries.get? j = some v :=
      ⟨entries.get ⟨j, hlen ▸ hj⟩, List.get?_eq_get (hlen ▸ hj)⟩
    obtain ⟨e', he', hre⟩ := renderResultsGo_get hr hv
    rw [he'] at he
    cases he
    rw [renderEntry_expanded hre]
    exact decide_eq_decide.mpr (by omega)

section
attribute [local semireducible] Rat.mul

/-- Witness for C7: a concrete two-entry response renders two expanders,
the first expanded, the second collapsed. -/
theorem c7_n_expanders_first_expanded_witness :
    handler (.response 200 (some (.jarr
        [.jobj [("country", JVal.jstr "portugal"),
                ("similarity_score", JVal.jnum (mkRat 92 100))],
         .jobj []]))) =
      .results
        [{ name := "Portugal", overallPercent := 92, expanded := true,
           overallProgress := mkRat 23 25,
           factors := [("💰 Cost of Living", 0, 0), ("🌡️ Temperature", 0, 0),
                       ("🌐 Internet Speed", 0, 0), ("🛡️ Safety", 0, 0),
                       ("🏥 Healthcare", 0, 0)] },
         { name := "Unknown Country 2", overallPercent := 0, expanded := false,
           overallProgress := 0,
           factors := [("💰 Cost of Living", 0, 0), ("🌡️ Temperature", 0, 0),
                       ("🌐 Internet Speed", 0, 0), ("🛡️ Safety", 0, 0),
                       ("🏥 Healthcare", 0, 0)] }] ∧
      ({ name := "Portugal", overallPercent := 92, expanded := true,
         overallProgress := mkRat 23 25,
         factors := [("💰 Cost of Living", 0, 0), ("🌡️ Temperature", 0, 0),
                     ("🌐 Internet Speed", 0, 0), ("🛡️ Safety", 0, 0),
                     ("🏥 Healthcare", 0, 0)] } : Expander).expanded = true ∧
      ({ name := "Unknown Country 2", overallPercent := 0, expanded := false,
         overallProgress := 0,
         factors := [("💰 Cost of Living", 0, 0), ("🌡️ Temperature", 0, 0),
                     ("🌐 Internet Speed", 0, 0), ("🛡️ Safety", 0, 0),
                     ("🏥 Healthcare", 0, 0)] } : Expander).expanded = false := by
  have h := c7_n_expanders_first_expanded
    [.jobj [("country", JVal.jstr "portugal"),
            ("similarity_score", JVal.jnum (mkRat 92 100))],
     .jobj []]
    [{ name := "Portugal", overallPercent := 92, expanded := true,
       overallProgress := mkRat 23 25,
       factors := [("💰 Cost of Living", 0, 0), ("🌡️ Temperature", 0, 0),
                   ("🌐 Internet Speed", 0, 0), ("🛡️ Safety", 0, 0),
                   ("🏥 Healthcare", 0, 0)] },
     { name := "Unknown Country 2", overallPercent := 0, expanded := false,
       overallProgress := 0,
       factors := [("💰 Cost of Living", 0, 0), ("🌡️ Temperature", 0, 0),
                   ("🌐 Internet Speed", 0, 0), ("🛡️ Safety", 0, 0),
                   ("🏥 Healthcare", 0, 0)] }]
    (List.cons_ne_nil _ _) rfl
  exact ⟨h.1, (h.2.2 0 _ rfl).trans rfl, (h.2.2 1 _ rfl).trans rfl⟩

end

/-! ## Claim C2 -/

/-- Claim C2 (corrected): a response payload that parses as JSON but is
not a list is shown with the generic "unexpected response" error plus
the raw payload dump and does not crash; but a body that fails to parse
as JSON lands in the generic `RequestException` handler instead, showing
the network-error message without any raw payload dump. -/
theorem c2_nonlist_payload_error_with_dump :
    ∀ status : ℕ, raisesForStatus status = false →
      (∀ v : JVal, isArr v = false →
        handler (.response status (some v)) = .errorWithDump unexpectedResponseMsg v) ∧
      handler (.response status none) = .errorMsg (networkErrorMsg jsonDecodeErrorText) := by
  intro status hs
  constructor
  · intro v hv
    cases v <;> simp_all [handler, isArr]
  · simp [handler, hs]

/-- Witness for C2: at status 200 with a JSON-object payload the error
plus dump is rendered, and an unparseable body gives the network error. -/
theorem c2_nonlist_payload_error_with_dump_witness :
    handler (.response 200 (some (.jobj []))) =
        .errorWithDump unexpectedResponseMsg (.jobj []) ∧
      handler (.response 200 none) = .errorMsg (networkErrorMsg jsonDecodeErrorText) :=
  ⟨(c2_nonlist_payload_error_with_dump 200 rfl).1 (.jobj []) rfl,
   (c2_nonlist_payload_error_with_dump 200 rfl).2⟩

/-- Counterexample to C2 as stated: a body that fails to parse as JSON
(modelled by `none`) is caught by the generic network-error handler, and
no raw payload dump is shown. -/
theorem c2_unparseable_body_has_no_raw_dump :
    handler (.response 200 none) = .errorMsg (networkErrorMsg jsonDecodeErrorText) ∧
      hasRawDump (handler (.response 200 none)) = false := ⟨rfl, rfl⟩

/-! ## Claim C3 -/

/-- Claim C3 (corrected): every HTTP status in [400, 600) — the statuses
`raise_for_status` actually raises for — renders the HTTPError message,
which embeds that status code; statuses 100-399 outside 200-299 do not. -/
theorem c3_4xx_5xx_status_message_includes_code :
    ∀ (status : ℕ) (body : Option JVal), 400 ≤ status → status < 600 →
      handler (.response status body) = .errorMsg (httpErrorMsg status) := by
  intro status body h1 h2
  simp [handler, raisesForStatus_true h1 h2]

/-- Witness for C3: a 404 response renders the message with the code. -/
theorem c3_4xx_5xx_status_message_includes_code_witness :
    handler (.response 404 none) = .errorMsg (httpErrorMsg 404) :=
  c3_4xx_5xx_status_message_includes_code 404 none (by decide) (by decide)

/-- Counterexample to C3 as stated: a 304 response is outside 200-299,
yet `raise_for_status` does not raise for it, so the rendered outcome is
the shape-dispatch one and its message contains no digit at all — in
particular not the status code. -/
theorem c3_status_304_renders_no_status_message :
    handler (.response 304 (some (.jstr "x"))) =
        .errorWithDump unexpectedResponseMsg (.jstr "x") ∧
      unexpectedResponseMsg.data.all (fun c => !c.isDigit) = true :=
  ⟨rfl, by decide⟩

/-! ## Claim C4 -/

/-- Claim C4 (confirmed): in the outgoing PreferenceRequest, a
`max_monthly_budget` of 0 normalizes to absent, and any positive value
passes through unchanged. -/
theorem c4_budget_zero_absent_positive_passthrough :
    ∀ (climate : String) (ci co he sa sp : ℕ) (continent : Option String),
      (buildPayload climate ci co he sa sp continent 0).max_monthly_budget = none ∧
      ∀ b : ℕ, 0 < b →
        (buildPayload climate ci co he sa sp continent b).max_monthly_budget = some b := by
  intro climate ci co he sa sp continent
  refine ⟨rfl, fun b hb => ?_⟩
  simp [buildPayload, normalizeBudget]
  omega

/-- Witness for C4 at the concrete inputs of the spec's end-to-end
scenario: budget 0 is absent, budget 500 passes through. -/
theorem c4_budget_zero_absent_positive_passthrough_witness :
    (buildPayload "mild" 5 5 5 5 5 none 0).max_monthly_budget = none ∧
      (buildPayload "mild" 5 5 5 5 5 none 500).max_monthly_budget = some 500 :=
  ⟨(c4_budget_zero_absent_positive_passthrough "mild" 5 5 5 5 5 none).1,
   (c4_budget_zero_absent_positive_passthrough "mild" 5 5 5 5 5 none).2 500 (by decide)⟩

/-! ## Directory pipeline lemmas -/

theorem dedupByCountry_sublist (seen : List String) (l : List DirEntry) :
    (dedupByCountry seen l).Sublist l := by
  induction l generalizing seen with
  | nil => simp [dedupByCountry]
  | cons e es ih =>
    simp only [dedupByCountry]
    split
    · exact (ih seen).trans (List.sublist_cons_self e es)
    · exact (ih _).cons₂ e

theorem dedupByCountry_mem_seen {l : List DirEntry} :
    ∀ {seen : List String} {e : DirEntry}, e ∈ dedupByCountry seen l →
      e.country ∉ seen := by
  induction l with
  | nil => intro seen e h; simp [dedupByCountry] at h
  | cons f fs ih =>
    intro seen e h
    simp only [dedupByCountry] at h
    split at h
    · exact ih h
    · rcases List.mem_cons.mp h with rfl | h2
      · assumption
      · intro hs
        exact ih h2 (List.mem_cons_of_mem _ hs)

theorem dedupByCountry_names_nodup (l : List DirEntry) :
    ∀ seen : List String, ((dedupByCountry seen l).map DirEntry.country).Nodup := by
  induction l with
  | nil => intro seen; simp [dedupByCountry]
  | cons f fs ih =>
    intro seen
    simp only [dedupByCountry]
    split
    · exact ih seen
    · simp only [List.map_cons, List.nodup_cons]
      refine ⟨fun hmem => ?_, ih _⟩
      obtain ⟨e, he, hname⟩ := List.mem_map.mp hmem
      exact dedupByCountry_mem_seen he (hname ▸ List.mem_cons_self _ _)

theorem dedupByCountry_names_mem {l : List DirEntry} :
    ∀ {seen : List String} {x : String}, x ∈ l.map DirEntry.country → x ∉ seen →
      x ∈ (dedupByCountry seen l).map DirEntry.country := by
  induction l with
  | nil => intro seen x h _; simp at h
  | cons f fs ih =>
    intro seen x h hx
    simp only [dedupByCountry]
    split
    · rcases List.mem_cons.mp h with rfl | h2
      · exact absurd (by assumption) hx
      · exact ih h2 hx
    · by_cases hxf : x = f.country
      · subst hxf
        exact List.mem_cons_self _ _
      · rcases List.mem_cons.mp h with heq | h2
        · exact absurd heq hxf
        · refine List.mem_cons_of_mem _ (ih h2 ?_)
          intro hmem
          rcases List.mem_cons.mp hmem with heq | hseen
          · exact hxf heq
          · exact hx hseen

theorem buildEntries_map_country (fuzzy : String → Option String) (names : List String) :
    (buildEntries fuzzy names).map DirEntry.country = names.map titleStr := by
  induction names with
  | nil => rfl
  | cons n ns ih =>
    simp only [buildEntries, List.map_cons] at ih ⊢
    cases h : resolveIso fuzzy n <;> simp [h, ih]

theorem buildEntries_entry {fuzzy : String → Option String} {names : List String}
    {e : DirEntry} (h : e ∈ buildEntries fuzzy names) :
    e.has_data = true ∨ e.iso_alpha_3 = "Unknown" := by
  obtain ⟨n, _, hn⟩ := List.mem_map.mp h
  cases hr : resolveIso fuzzy n <;> rw [hr] at hn <;> cases hn <;> simp

/-! ## Claim C6 -/

/-- Claim C6 (confirmed): directory post-processing deduplicates by
display name (first occurrence kept) and then drops every entry whose
code is the "Unknown" sentinel, so the directory handed to the map
renderer has pairwise-distinct display names and no unresolved entry. -/
theorem c6_dedup_then_drop_unresolved :
    ∀ (fuzzy : String → Option String) (load : Option (List String)),
      (∀ names, getCountriesData fuzzy (some names) =
        (dedupByCountry [] (buildEntries fuzzy names)).filter
          (fun e => e.iso_alpha_3 ≠ "Unknown")) ∧
      ((getCountriesData fuzzy load).map DirEntry.country).Nodup ∧
      ∀ e ∈ getCountriesData fuzzy load, e.iso_alpha_3 ≠ "Unknown" := by
  intro fuzzy load
  refine ⟨fun names => rfl, ?_, ?_⟩
  · cases load with
    | none => simp [getCountriesData]
    | some names =>
      exact ((List.filter_sublist _).map DirEntry.country).nodup
        (dedupByCountry_names_nodup _ [])
  · intro e he
    cases load with
    | none => simp [getCountriesData] at he
    | some names =>
      have := (List.mem_filter.mp he).2
      simpa using this

/-- Witness for C6: with a dataset column containing a duplicate and an
unresolvable name, the directory has distinct names and the surviving
entry is resolved. -/
theorem c6_dedup_then_drop_unresolved_witness :
    (((getCountriesData (fun _ => none) (some ["turkey", "Narnia", "turkey"])).map
        DirEntry.country).Nodup) ∧
      ({ country := "Turkey", iso_alpha_3 := "TUR", has_data := true } :
        DirEntry).iso_alpha_3 ≠ "Unknown" :=
  ⟨(c6_dedup_then_drop_unresolved (fun _ => none)
      (some ["turkey", "Narnia", "turkey"])).2.1,
   (c6_dedup_then_drop_unresolved (fun _ => none)
      (some ["turkey", "Narnia", "turkey"])).2.2
     { country := "Turkey", iso_alpha_3 := "TUR", has_data := true } (by decide)⟩

/-! ## Claim C8 -/

/-- Claim C8 (confirmed): every row of the returned directory — whether
the dataset loads or the call degrades to the empty fallback — has
`has_data = True` and an ISO code different from the "Unknown" sentinel:
the only rows built with `has_data = False` carry the sentinel, and the
sentinel rows are filtered out before return. -/
theorem c8_directory_rows_resolved_invariant :
    ∀ (fuzzy : String → Option String) (load : Option (List String)),
      ∀ e ∈ getCountriesData fuzzy load,
        e.has_data = true ∧ e.iso_alpha_3 ≠ "Unknown" := by
  intro fuzzy load e he
  cases load with
  | none => simp [getCountriesData] at he
  | some names =>
    have hiso : e.iso_alpha_3 ≠ "Unknown" := by
      simpa using (List.mem_filter.mp he).2
    have hmem : e ∈ buildEntries fuzzy names :=
      (dedupByCountry_sublist [] _).subset ((List.filter_sublist _).subset he)
    rcases buildEntries_entry hmem with hdata | hunk
    · exact ⟨hdata, hiso⟩
    · exact absurd hunk hiso

/-- Witness for C8: a concrete directory row is resolved and flagged. -/
theorem c8_directory_rows_resolved_invariant_witness :
    ({ country := "Hong Kong", iso_alpha_3 := "HKG", has_data := true } :
        DirEntry).has_data = true ∧
      ({ country := "Hong Kong", iso_alpha_3 := "HKG", has_data := true } :
        DirEntry).iso_alpha_3 ≠ "Unknown" :=
  c8_directory_rows_resolved_invariant (fun _ => none) (some ["hong kong", "Atlantis"])
    { country := "Hong Kong", iso_alpha_3 := "HKG", has_data := true } (by decide)

/-! ## Claim C5 -/

/-- Claim C5 (confirmed): the override table has exactly 13 entries;
every name that is a key of the table resolves to the table's code, for
every possible behaviour of the fuzzy matcher; in particular
"hong kong" resolves to "HKG". -/
theorem c5_override_table_bypasses_fuzzy :
    nameToIso.length = 13 ∧
      (∀ (fuzzy : String → Option String) (name iso : String),
        nameToIso.lookup name = some iso → resolveIso fuzzy name = some iso) ∧
      ∀ fuzzy : String → Option String, resolveIso fuzzy "hong kong" = some "HKG" := by
  refine ⟨rfl, fun fuzzy name iso h => ?_, fun fuzzy => rfl⟩
  simp [resolveIso, h]

/-- Witness for C5: with a fuzzy matcher that would answer a different
code for every name, "hong kong" still resolves to "HKG" through the
table. -/
theorem c5_override_table_bypasses_fuzzy_witness :
    nameToIso.length = 13 ∧
      resolveIso (fun _ => some "XXX") "hong kong" = some "HKG" :=
  ⟨c5_override_table_bypasses_fuzzy.1,
   c5_override_table_bypasses_fuzzy.2.1 (fun _ => some "XXX") "hong kong" "HKG" rfl⟩

/-! ## Character and title-casing lemmas -/

theorem char_toNat_ofNat {n : ℕ} (h : n < 55296) : (Char.ofNat n).toNat = n := by
  unfold Char.ofNat
  rw [dif_pos (Or.inl h)]
  rfl

theorem char_toNat_inj {c1 c2 : Char} (h : c1.toNat = c2.toNat) : c1 = c2 := by
  have h2 := congrArg Char.ofNat h
  rwa [Char.ofNat_toNat, Char.ofNat_toNat] at h2

theorem chCase_aux {c1 c2 : Char} (h1 : 65 ≤ c1.toNat ∧ c1.toNat ≤ 90)
    (h2 : ¬(65 ≤ c2.toNat ∧ c2.toNat ≤ 90)) (h : chToLower c1 = chToLower c2) :
    chToUpper c1 = chToUpper c2 ∧ chIsAlpha c1 = chIsAlpha c2 := by
  rw [chToLower, if_pos h1, chToLower, if_neg h2] at h
  have hc2 : c2.toNat = c1.toNat + 32 := by
    rw [← h, char_toNat_ofNat (by omega)]
  constructor
  · rw [chToUpper, if_neg (by omega), chToUpper, if_pos (by omega)]
    have : c2.toNat - 32 = c1.toNat := by omega
    rw [this, Char.ofNat_toNat]
  · have e1 : chIsAlpha c1 = true := by
      simp only [chIsAlpha, decide_eq_true_eq]
      omega
    have e2 : chIsAlpha c2 = true := by
      simp only [chIsAlpha, decide_eq_true_eq]
      omega
    rw [e1, e2]

theorem chToLower_case_congr {c1 c2 : Char} (h : chToLower c1 = chToLower c2) :
    chToUpper c1 = chToUpper c2 ∧ chIsAlpha c1 = chIsAlpha c2 := by
  by_cases h1 : 65 ≤ c1.toNat ∧ c1.toNat ≤ 90 <;>
    by_cases h2 : 65 ≤ c2.toNat ∧ c2.toNat ≤ 90
  · rw [chToLower, if_pos h1, chToLower, if_pos h2] at h
    have := congrArg Char.toNat h
    rw [char_toNat_ofNat (by omega), char_toNat_ofNat (by omega)] at this
    have hc : c1 = c2 := char_toNat_inj (by omega)
    subst hc
    exact ⟨rfl, rfl⟩
  · exact chCase_aux h1 h2 h
  · obtain ⟨hu, ha⟩ := chCase_aux h2 h1 h.symm
    exact ⟨hu.symm, ha.symm⟩
  · rw [chToLower, if_neg h1, chToLower, if_neg h2] at h
    subst h
    exact ⟨rfl, rfl⟩

theorem titleAux_congr : ∀ {l1 l2 : List Char}, l1.map chToLower = l2.map chToLower →
    ∀ b, titleAux b l1 = titleAux b l2 := by
  intro l1
  induction l1 with
  | nil =>
    intro l2 h b
    cases l2 with
    | nil => rfl
    | cons d ds => simp at h
  | cons c cs ih =>
    intro l2 h b
    cases l2 with
    | nil => simp at h
    | cons d ds =>
      simp only [List.map_cons, List.cons.injEq] at h
      obtain ⟨hc, hcs⟩ := h
      obtain ⟨hup, halpha⟩ := chToLower_case_congr hc
      simp only [titleAux]
      rw [halpha, ih hcs]
      cases b
      · simp [hup]
      · simp [hc]

theorem titleStr_congr {s t : String} (h : eqUpToCase s t) : titleStr s = titleStr t :=
  congrArg String.mk (titleAux_congr h false)

theorem natReprAux_digits : ∀ (fuel n : ℕ), ∀ c ∈ natReprAux fuel n,
    48 ≤ c.toNat ∧ c.toNat ≤ 57 := by
  intro fuel
  induction fuel with
  | zero => intro n c h; simp [natReprAux] at h
  | succ f ih =>
    intro n c h
    simp only [natReprAux] at h
    split at h
    · simp only [List.mem_singleton] at h
      subst h
      rw [char_toNat_ofNat (by omega)]
      omega
    · rcases List.mem_append.mp h with h1 | h2
      · exact ih _ c h1
      · simp only [List.mem_singleton] at h2
        subst h2
        have : n % 10 < 10 := Nat.mod_lt _ (by omega)
        rw [char_toNat_ofNat (by omega)]
        omega

theorem titleAux_nonalpha {l : List Char} (h : ∀ c ∈ l, chIsAlpha c = false) :
    ∀ b, titleAux b l = l := by
  induction l with
  | nil => intro b; rfl
  | cons c cs ih =>
    intro b
    have hc := h c (List.mem_cons_self _ _)
    have hprop : ¬((65 ≤ c.toNat ∧ c.toNat ≤ 90) ∨ (97 ≤ c.toNat ∧ c.toNat ≤ 122)) := by
      simpa [chIsAlpha] using hc
    have hlow : chToLower c = c := by
      rw [chToLower, if_neg (fun hin => hprop (Or.inl hin))]
    have hup : chToUpper c = c := by
      rw [chToUpper, if_neg (fun hin => hprop (Or.inr hin))]
    simp only [titleAux, hc]
    rw [ih (fun d hd => h d (List.mem_cons_of_mem _ hd)) false]
    cases b
    · simp [hup]
    · simp [hlow]

theorem titleAux_append (l1 : List Char) : ∀ (b : Bool) (l2 : List Char),
    titleAux b (l1 ++ l2) = titleAux b l1 ++ titleAux (titleFlagAfter b l1) l2 := by
  induction l1 with
  | nil => intro b l2; rfl
  | cons c cs ih =>
    intro b l2
    simp only [List.cons_append, titleAux, titleFlagAfter, List.append_eq]
    rw [ih (chIsAlpha c) l2]

theorem titleStr_unknown_country (i : ℕ) :
    titleStr ("Unknown Country " ++ natRepr i) = "Unknown Country " ++ natRepr i := by
  have hdigits : ∀ c ∈ (natRepr i).data, chIsAlpha c = false := by
    intro c hc
    have hd := natReprAux_digits (i + 1) i c hc
    simp only [chIsAlpha, decide_eq_false_iff_not]
    omega
  apply String.ext
  show titleAux false (("Unknown Country " ++ natRepr i).data) =
    ("Unknown Country " ++ natRepr i).data
  rw [String.data_append, titleAux_append]
  rw [show titleAux false "Unknown Country ".data = "Unknown Country ".data from by decide]
  rw [show titleFlagAfter false "Unknown Country ".data = false from by decide]
  rw [titleAux_nonalpha hdigits false]

/-! ## Claim C9 -/

/-- Claim C9 (confirmed): directory display names are the title-cased
dataset names, and deduplication operates on them, so two dataset names
that differ only in letter casing have the same title-cased form and
yield exactly one directory entry with that name after deduplication. -/
theorem c9_title_cased_names_case_insensitive_dedup :
    ∀ (fuzzy : String → Option String) (names : List String) (s1 s2 : String),
      s1 ∈ names → s2 ∈ names → eqUpToCase s1 s2 →
      titleStr s1 = titleStr s2 ∧
      (buildEntries fuzzy names).map DirEntry.country = names.map titleStr ∧
      ((dedupByCountry [] (buildEntries fuzzy names)).map DirEntry.country).count
        (titleStr s1) = 1 := by
  intro fuzzy names s1 s2 h1 h2 hcase
  refine ⟨titleStr_congr hcase, buildEntries_map_country fuzzy names, ?_⟩
  have hmem : titleStr s1 ∈ (buildEntries fuzzy names).map DirEntry.country := by
    rw [buildEntries_map_country]
    exact List.mem_map_of_mem titleStr h1
  have hmem2 : titleStr s1 ∈ (dedupByCountry [] (buildEntries fuzzy names)).map
      DirEntry.country :=
    dedupByCountry_names_mem hmem (List.not_mem_nil _)
  exact List.count_eq_one_of_mem (dedupByCountry_names_nodup _ []) hmem2

/-- Witness for C9: "turkey" and "TURKEY" differ only in casing; both
title-case to "Turkey" and exactly one directory entry named "Turkey"
survives deduplication. -/
theorem c9_title_cased_names_case_insensitive_dedup_witness :
    titleStr "turkey" = titleStr "TURKEY" ∧
      (buildEntries (fun _ => none) ["turkey", "TURKEY"]).map DirEntry.country =
        ["turkey", "TURKEY"].map titleStr ∧
      ((dedupByCountry [] (buildEntries (fun _ => none) ["turkey", "TURKEY"])).map
        DirEntry.country).count (titleStr "turkey") = 1 :=
  c9_title_cased_names_case_insensitive_dedup (fun _ => none) ["turkey", "TURKEY"]
    "turkey" "TURKEY" (by decide) (by decide) (by unfold eqUpToCase; decide)

/-! ## Claim C10 -/

/-- Claim C10 (confirmed): a response entry without a 'country' key gets
the display name "Unknown Country i", where i is the entry's 1-based
position in the response list (the title-casing leaves this fallback
string unchanged). -/
theorem c10_missing_country_key_fallback_name :
    ∀ (entries : List JVal) (exps : List Expander) (j : ℕ)
      (fields : List (String × JVal)) (e : Expander),
      renderResults entries = .ok exps → entries.get? j = some (.jobj fields) →
      fields.lookup "country" = none → exps.get? j = some e →
      e.name = "Unknown Country " ++ natRepr (j + 1) := by
  intro entries exps j fields e hr hj hc he
  obtain ⟨e', he', hre⟩ := renderResultsGo_get hr hj
  rw [he'] at he
  cases he
  have hname := renderEntry_name hre hc
  rw [titleStr_unknown_country] at hname
  rw [hname, Nat.add_comm]

section
attribute [local semireducible] Rat.mul

/-- Witness for C10: in a two-entry response whose second entry has no
'country' key, the second expander is named "Unknown Country 2". -/
theorem c10_missing_country_key_fallback_name_witness :
    ({ name := "Unknown Country 2", overallPercent := 0, expanded := false,
       overallProgress := 0,
       factors := [("💰 Cost of Living", 0, 0), ("🌡️ Temperature", 0, 0),
                   ("🌐 Internet Speed", 0, 0), ("🛡️ Safety", 0, 0),
                   ("🏥 Healthcare", 0, 0)] } : Expander).name = "Unknown Country 2" :=
  (c10_missing_country_key_fallback_name
    [.jobj [("country", JVal.jstr "portugal")], .jobj []]
    [{ name := "Portugal", overallPercent := 0, expanded := true,
       overallProgress := 0,
       factors := [("💰 Cost of Living", 0, 0), ("🌡️ Temperature", 0, 0),
                   ("🌐 Internet Speed", 0, 0), ("🛡️ Safety", 0, 0),
                   ("🏥 Healthcare", 0, 0)] },
     { name := "Unknown Country 2", overallPercent := 0, expanded := false,
       overallProgress := 0,
       factors := [("💰 Cost of Living", 0, 0), ("🌡️ Temperature", 0, 0),
                   ("🌐 Internet Speed", 0, 0), ("🛡️ Safety", 0, 0),
                   ("🏥 Healthcare", 0, 0)] }]
    1 [] _ rfl rfl rfl rfl).trans rfl

end

end WSIL
